import Mathlib

/-!
Verification of the document-ingestion and prompt-assembly pipeline of the
resumebot application (source: app-final.py).

The Python source is shallowly embedded: byte streams become a `ByteFile`
structure (byte list plus read position), Python exceptions become an
explicit `Exc` type threaded through `Except`, Streamlit diagnostics
(st.warning / st.error) become an explicit list of `Diag` values returned
alongside each result, and the optional third-party parsing libraries
(pypdf, python-docx) and the OpenAI network call become explicit
environment parameters recording availability and outcomes.

Bytes are natural numbers in the range 0..255.  Python str.lower is
modelled on its ASCII fragment (the only part exercised by the extension
dispatch), and str.strip on the ASCII whitespace characters.
-/

/-- A Streamlit diagnostic notification: st.warning or st.error. -/
inductive Diag where
  | warning (msg : String)
  | error (msg : String)
deriving DecidableEq, Repr

/-- A Python exception value, abstracted: we track the one exception class
the source discriminates on (UnicodeDecodeError); every other exception is
`other` with an arbitrary tag. -/
inductive Exc where
  | unicodeDecodeError
  | other (tag : Nat)
deriving DecidableEq, Repr

/-- Decidable equality of Except values, for evaluating concrete runs. -/
instance {ε α : Type} [DecidableEq ε] [DecidableEq α] : DecidableEq (Except ε α)
  | .ok a, .ok b =>
    if h : a = b then .isTrue (by rw [h]) else .isFalse (by intro hh; cases hh; exact h rfl)
  | .ok _, .error _ => .isFalse (by intro hh; cases hh)
  | .error _, .ok _ => .isFalse (by intro hh; cases hh)
  | .error a, .error b =>
    if h : a = b then .isTrue (by rw [h]) else .isFalse (by intro hh; cases hh; exact h rfl)

/-- Prose rendering of an exception, standing in for Python str(e). -/
def excMsg : Exc → String
  | .unicodeDecodeError => "UnicodeDecodeError"
  | .other t => "Exception#" ++ toString t

/-- A seekable binary stream: the full byte buffer plus the current read
position, as presented by a Streamlit UploadedFile. -/
structure ByteFile where
  data : List Nat
  pos : Nat
deriving DecidableEq, Repr

/-- Python file.read(): returns the bytes from the current position to the
end and leaves the position at the end. -/
def ByteFile.readAll (s : ByteFile) : List Nat × ByteFile :=
  (s.data.drop s.pos, { s with pos := s.data.length })

/-- Python file.seek(0): resets the read position to the start. -/
def ByteFile.seek0 (s : ByteFile) : ByteFile :=
  { s with pos := 0 }

/-- Whether a byte is a UTF-8 continuation byte (0x80..0xBF). -/
def utf8Cont (b : Nat) : Bool :=
  0x80 ≤ b && b ≤ 0xBF

/-- Allowed range of the first continuation byte of a three-byte sequence,
given the lead byte: E0 forbids overlong encodings, ED forbids surrogates. -/
def utf8Cont3 (b c : Nat) : Bool :=
  if b = 0xE0 then 0xA0 ≤ c && c ≤ 0xBF
  else if b = 0xED then 0x80 ≤ c && c ≤ 0x9F
  else utf8Cont c

/-- Allowed range of the first continuation byte of a four-byte sequence,
given the lead byte: F0 forbids overlong encodings, F4 caps at U+10FFFF. -/
def utf8Cont4 (b c : Nat) : Bool :=
  if b = 0xF0 then 0x90 ≤ c && c ≤ 0xBF
  else if b = 0xF4 then 0x80 ≤ c && c ≤ 0x8F
  else utf8Cont c

/-- Strict UTF-8 decoding of a byte list, as performed by Python
bytes.decode with the utf-8 codec: `none` models a raised
UnicodeDecodeError. -/
def utf8Decode : List Nat → Option (List Char)
  | [] => some []
  | b :: l =>
    if b ≤ 0x7F then
      (utf8Decode l).map (fun cs => Char.ofNat b :: cs)
    else if b < 0xC2 then none
    else if b ≤ 0xDF then
      match l with
      | c :: l2 =>
        if utf8Cont c then
          (utf8Decode l2).map (fun cs => Char.ofNat ((b - 0xC0) * 0x40 + (c - 0x80)) :: cs)
        else none
      | [] => none
    else if b ≤ 0xEF then
      match l with
      | c1 :: c2 :: l2 =>
        if utf8Cont3 b c1 && utf8Cont c2 then
          (utf8Decode l2).map (fun cs =>
            Char.ofNat ((b - 0xE0) * 0x1000 + (c1 - 0x80) * 0x40 + (c2 - 0x80)) :: cs)
        else none
      | _ => none
    else if b ≤ 0xF4 then
      match l with
      | c1 :: c2 :: c3 :: l2 =>
        if utf8Cont4 b c1 && utf8Cont c2 && utf8Cont c3 then
          (utf8Decode l2).map (fun cs =>
            Char.ofNat ((b - 0xF0) * 0x40000 + (c1 - 0x80) * 0x1000
              + (c2 - 0x80) * 0x40 + (c3 - 0x80)) :: cs)
        else none
      | _ => none
    else none

/-- Python bytes.decode with the utf-8 codec as a fallible operation:
failure raises UnicodeDecodeError. -/
def decodeUtf8E (l : List Nat) : Except Exc String :=
  match utf8Decode l with
  | some cs => .ok (String.mk cs)
  | none => .error .unicodeDecodeError

/-- Python bytes.decode with the latin-1 codec: every byte maps to the
character of the same code point, so decoding is total (with the
errors=ignore handler the source passes, it can never fail either way). -/
def decodeLatin1 (l : List Nat) : String :=
  String.mk (l.map Char.ofNat)

/-- Whether a character is stripped by Python str.strip (ASCII fragment). -/
def pyWhite (c : Char) : Bool :=
  c = ' ' || c = '\t' || c = '\n' || c = '\r' || c = Char.ofNat 0x0B || c = Char.ofNat 0x0C

/-- Python str.strip(): removes leading and trailing whitespace. -/
def pyStrip (s : String) : String :=
  String.mk (((s.data.dropWhile pyWhite).reverse.dropWhile pyWhite).reverse)

/-- Python truthiness of str.strip(): blank means stripping leaves nothing. -/
def pyBlank (s : String) : Bool :=
  (pyStrip s).data.isEmpty

/-- Python str.lower() on its ASCII fragment, the part the extension
dispatch exercises. -/
def pyLower (s : String) : String :=
  String.mk (s.data.map Char.toLower)

/-- Python str.endswith, modelled over the character lists. -/
def pyEndsWith (s suf : String) : Bool :=
  suf.data.isSuffixOf s.data

/-- Python sep.join(parts). -/
def pyJoin (sep : String) : List String → String
  | [] => ""
  | [x] => x
  | x :: y :: xs => x ++ sep ++ pyJoin sep (y :: xs)

/-- The result of one extractor call: the text produced, the stream as the
call leaves it, and the diagnostics emitted along the way. -/
structure ExtractOut where
  text : String
  file : ByteFile
  diags : List Diag
deriving DecidableEq, Repr

/-- Parsing environment: availability of the optional libraries and, when
available, the outcome of handing the full byte buffer to each parser.
A pypdf page is modelled by the outcome of its extract_text() call:
it raises, or returns an optional string (None becomes empty via
the or-empty guard in the source). -/
structure ParseEnv where
  pdfAvailable : Bool
  docxAvailable : Bool
  pdfParse : List Nat → Except Exc (List (Except Exc (Option String)))
  docxParse : List Nat → Except Exc (List String)

/-- Message of the warning shown when pypdf is missing. -/
def pdfWarnMsg : String := "pypdf not installed; cannot read PDF."

/-- Message of the warning shown when python-docx is missing. -/
def docxWarnMsg : String := "python-docx not installed; cannot read DOCX."

/-- Message of the error shown when PDF parsing fails. -/
def pdfErrMsg (e : Exc) : String := "Failed to read PDF: " ++ excMsg e

/-- Message of the error shown when DOCX parsing fails. -/
def docxErrMsg (e : Exc) : String := "Failed to read DOCX: " ++ excMsg e

/-- Embedding of read_txt: read the stream, decode as UTF-8, and on a
UnicodeDecodeError decode as latin-1 instead; any other exception from the
inner block would propagate past the finally clause, which always seeks
back to the start. -/
def read_txt (s : ByteFile) : Except Exc ExtractOut :=
  let r := s.readAll
  let inner : Except Exc String :=
    match decodeUtf8E r.1 with
    | .ok t => .ok t
    | .error .unicodeDecodeError => .ok (decodeLatin1 r.1)
    | .error e => .error e
  match inner with
  | .ok t => .ok ⟨t, r.2.seek0, []⟩
  | .error e => .error e

/-- Embedding of read_docx: if python-docx is missing, warn and return
empty text without touching the stream; otherwise parse the buffer
(consuming the stream), join the paragraphs whose text is non-blank with
newlines, catch any parse exception as an error diagnostic with empty
text, and in all those paths seek back to the start. -/
def read_docx (env : ParseEnv) (s : ByteFile) : Except Exc ExtractOut :=
  if env.docxAvailable = false then
    .ok ⟨"", s, [.warning docxWarnMsg]⟩
  else
    let r := s.readAll
    match env.docxParse r.1 with
    | .ok paras =>
        .ok ⟨pyJoin "\n" (paras.filter (fun p => !pyBlank p)), r.2.seek0, []⟩
    | .error e => .ok ⟨"", r.2.seek0, [.error (docxErrMsg e)]⟩

/-- Text contributed to the parts list by the pages of a parsed PDF: a
page whose extract_text raises is skipped by the bare except/pass (its
append never runs), a page returning None contributes the empty string,
and a page returning text contributes that text. -/
def pdfParts (pages : List (Except Exc (Option String))) : List String :=
  pages.filterMap (fun pg =>
    match pg with
    | .ok t => some (t.getD "")
    | .error _ => none)

/-- Embedding of read_pdf: if pypdf is missing, warn and return empty text
without touching the stream; otherwise parse the buffer (consuming the
stream), collect the per-page texts with each raising page skipped, join
them with newlines, catch any reader-level exception as an error
diagnostic with empty text, and in all those paths seek back to the
start. -/
def read_pdf (env : ParseEnv) (s : ByteFile) : Except Exc ExtractOut :=
  if env.pdfAvailable = false then
    .ok ⟨"", s, [.warning pdfWarnMsg]⟩
  else
    let r := s.readAll
    match env.pdfParse r.1 with
    | .ok pages =>
        .ok ⟨pyJoin "\n" (pdfParts pages), r.2.seek0, []⟩
    | .error e => .ok ⟨"", r.2.seek0, [.error (pdfErrMsg e)]⟩

/-- Embedding of read_any: lower-case the name and dispatch on its
suffix; `.pdf` goes to the PDF reader, `.docx` to the DOCX reader, `.txt`
and everything else to the plain-text reader. -/
def read_any (env : ParseEnv) (s : ByteFile) (name : String) : Except Exc ExtractOut :=
  let nameLower := pyLower name
  if pyEndsWith nameLower ".pdf" then read_pdf env s
  else if pyEndsWith nameLower ".docx" then read_docx env s
  else if pyEndsWith nameLower ".txt" then read_txt s
  else read_txt s

/-- The three extraction paths named by the specification. -/
inductive ExtKind where
  | pdf
  | docx
  | txt
deriving DecidableEq, Repr

/-- Case-insensitive suffix test, as the specification words it. -/
def endsWithCI (hay suf : String) : Bool :=
  pyEndsWith (pyLower hay) (pyLower suf)

/-- Modelled from the spec: the dispatch rule as the specification states
it — a name ending case-insensitively in .pdf takes the PDF path, in
.docx the DOCX path, and .txt or anything unrecognized the plain-text
path. -/
def dispatchSpec (name : String) : ExtKind :=
  if endsWithCI name ".pdf" then .pdf
  else if endsWithCI name ".docx" then .docx
  else .txt

/-- Environment of the OpenAI client helper: the outcome of the
st.secrets lookup (which raises when no secrets file exists), the
OPENAI_API_KEY environment variable, whether the openai package with the
new interface imports, and the outcome the chat-completions endpoint
would produce if called with a given system and user message (the raised
exception, or the content of the first choice). -/
structure LLMEnv where
  secretsGet : Except Exc (Option String)
  envKey : Option String
  sdkAvailable : Bool
  netResp : String → String → Except Exc String

/-- Python truthiness of the optional api_key string: falsy when absent
or empty. -/
def optFalsy : Option String → Bool
  | none => true
  | some s => s.data.isEmpty

/-- Message of the error shown when the openai package is missing or
legacy. -/
def sdkErrMsg : String :=
  "OpenAI SDK not installed or is the legacy 0.x version. Make sure requirements include openai>=1.0 and that it is installed."

/-- Message of the warning shown when no API key is found. -/
def keyWarnMsg : String :=
  "OpenAI API key not found. Add OPENAI_API_KEY to .streamlit/secrets.toml or environment variables."

/-- The fixed fallback returned by call_llm_chat when no client could be
built. -/
def noSetupMsg : String :=
  "Missing or invalid OpenAI setup. Please configure OPENAI_API_KEY and install openai>=1.0."

/-- Message of the error diagnostic shown when the completion call
raises. -/
def callFailMsg (e : Exc) : String := "OpenAI call failed: " ++ excMsg e

/-- The fixed fallback returned by call_llm_chat when the completion call
raises. -/
def llmErrMsg : String :=
  "There was an error calling the LLM. Check your API key, billing, SDK version, and model name."

/-- Embedding of get_openai_client: read the key from the secrets store
(treating a raised lookup as absent), fall back to the environment when
falsy, then fail with an error if the SDK is missing, warn and fail if the
key is still falsy, and otherwise return a client holding the key. -/
def get_openai_client (env : LLMEnv) : Option String × List Diag :=
  let fromSecrets : Option String :=
    match env.secretsGet with
    | .ok k => k
    | .error _ => none
  let apiKey : Option String :=
    if optFalsy fromSecrets then env.envKey else fromSecrets
  if env.sdkAvailable = false then
    (none, [.error sdkErrMsg])
  else if optFalsy apiKey then
    (none, [.warning keyWarnMsg])
  else
    (apiKey, [])

/-- Outcome of one call_llm_chat invocation: the returned string, the
diagnostics emitted, and the number of network requests issued. -/
structure LLMOut where
  output : String
  diags : List Diag
  netCalls : Nat
deriving DecidableEq, Repr

/-- Embedding of call_llm_chat: build the client, return the fixed setup
fallback when that fails, otherwise issue exactly one completion request
and return its content, or catch the raised transport failure, show an
error diagnostic and return the generic error fallback. -/
def call_llm_chat (env : LLMEnv) (systemPromptArg userPromptArg : String) : LLMOut :=
  let c := get_openai_client env
  match c.1 with
  | none => ⟨noSetupMsg, c.2, 0⟩
  | some _ =>
    match env.netResp systemPromptArg userPromptArg with
    | .ok content => ⟨content, c.2, 1⟩
    | .error e => ⟨llmErrMsg, c.2 ++ [.error (callFailMsg e)], 1⟩

/-- Whether neither configuration source yields a non-empty credential:
the secrets store does not return a non-empty key (it raises, returns
None, or returns the empty string) and the environment variable is unset
or empty. -/
def noCredential (env : LLMEnv) : Prop :=
  optFalsy (match env.secretsGet with | .ok k => k | .error _ => none) = true
    ∧ optFalsy env.envKey = true

instance (env : LLMEnv) : Decidable (noCredential env) := by
  unfold noCredential; infer_instance

/-- The fixed system directive of the prompt. -/
def systemPrompt : String :=
  "You are a helpful assistant that writes tailored cover letters and bullet points that map a resume to a given job description. Be concise and specific."

/-- The task instruction used when the cover-letter button was clicked. -/
def coverInstr : String :=
  "Write a tailored cover letter (<= 300 words)."

/-- The task instruction used otherwise (resume-bullets button). -/
def bulletsInstr : String :=
  "Write 6–8 quantified resume bullet points mapped to the JD, grouped by theme."

/-- Embedding of the user-prompt f-string of main: the four sections in
fixed order, with the task line chosen by the cover-letter flag. -/
def userPrompt (jd cv notes : String) (genCover : Bool) : String :=
  "JOB DESCRIPTION:\n" ++ jd ++ "\n\nRESUME / PROFILE:\n" ++ cv
    ++ "\n\nEXTRA NOTES:\n" ++ notes ++ "\n\nTASK: "
    ++ (if genCover then coverInstr else bulletsInstr) ++ "\n"

/-- Validation message shown when the job description is blank. -/
def jdValidationMsg : String :=
  "Please provide a Job Description (upload or paste)."

/-- Validation message shown when both resume and extra notes are blank. -/
def cvValidationMsg : String :=
  "Please provide your Resume (upload) or profile text."

/-- Embedding of the generate section of main: when a button was clicked,
block with a validation error if the job description is blank, then if
both the parsed resume and the extra notes are blank, and otherwise
assemble the user prompt and call the LLM. -/
def genSection (env : LLMEnv) (jd parsedCv profileExtra : String)
    (genCover genBullets : Bool) : LLMOut :=
  if genCover || genBullets then
    if pyBlank jd then ⟨"", [.error jdValidationMsg], 0⟩
    else if !(!pyBlank parsedCv || !pyBlank profileExtra) then
      ⟨"", [.error cvValidationMsg], 0⟩
    else
      call_llm_chat env systemPrompt (userPrompt jd parsedCv profileExtra genCover)
  else ⟨"", [], 0⟩

/-- The listed strings occur in the given string in order, without
overlap: the string splits as interleaving filler around the pieces. -/
def ContainsInOrder : List String → String → Prop
  | [], _ => True
  | x :: xs, s => ∃ pre rest, s = pre ++ x ++ rest ∧ ContainsInOrder xs rest

/-- The text read_txt produces from a byte list: the UTF-8 decoding when
it succeeds, the latin-1 decoding otherwise. -/
def utf8OrLatin1 (l : List Nat) : String :=
  match utf8Decode l with
  | some cs => String.mk cs
  | none => decodeLatin1 l

/-- A concrete parsing environment with both optional libraries missing. -/
def noParseEnv : ParseEnv :=
  ⟨false, false, fun _ => .error (.other 0), fun _ => .error (.other 0)⟩

/-- A concrete parsing environment with only python-docx missing. -/
def docxMissingEnv : ParseEnv :=
  ⟨true, false, fun _ => .ok [], fun _ => .error (.other 0)⟩

/-- A concrete three-page parse outcome: a page yielding text, a page
whose extraction raises, and another page yielding text. -/
def pagesCex : List (Except Exc (Option String)) :=
  [.ok (some "a"), .error (.other 7), .ok (some "b")]

/-- A concrete parsing environment whose PDF parser yields `pagesCex`. -/
def pdfCexEnv : ParseEnv :=
  ⟨true, true, fun _ => .ok pagesCex, fun _ => .ok []⟩

/-- A concrete LLM environment with no credential anywhere and a healthy
SDK and endpoint. -/
def llmEnvNoKey : LLMEnv :=
  ⟨.error (.other 0), none, true, fun _ _ => .ok "TEXT"⟩

/-- A concrete LLM environment with a credential in secrets but the SDK
missing. -/
def llmEnvSdkMissing : LLMEnv :=
  ⟨.ok (some "sk-test"), none, false, fun _ _ => .ok "TEXT"⟩

/-- A concrete healthy LLM environment: credential in secrets, SDK
present, endpoint answering with a fixed text. -/
def llmEnvOk : LLMEnv :=
  ⟨.ok (some "sk-test"), none, true, fun _ _ => .ok "TEXT"⟩

theorem strAppendAssoc (a b c : String) : a ++ b ++ c = a ++ (b ++ c) := by
  rcases a with ⟨a⟩; rcases b with ⟨b⟩; rcases c with ⟨c⟩
  show String.mk (a ++ b ++ c) = String.mk (a ++ (b ++ c))
  rw [List.append_assoc]

theorem read_txt_eq (s : ByteFile) :
    read_txt s = .ok ⟨utf8OrLatin1 (s.data.drop s.pos), ⟨s.data, 0⟩, []⟩ := by
  cases h : utf8Decode (s.data.drop s.pos) <;>
    simp only [read_txt, decodeUtf8E, utf8OrLatin1, ByteFile.readAll, ByteFile.seek0, h]

theorem read_pdf_unavailable (env : ParseEnv) (s : ByteFile)
    (h : env.pdfAvailable = false) :
    read_pdf env s = .ok ⟨"", s, [.warning pdfWarnMsg]⟩ := by
  unfold read_pdf
  simp [h]

theorem read_pdf_run (env : ParseEnv) (s : ByteFile)
    (h : env.pdfAvailable = true) :
    read_pdf env s =
      match env.pdfParse (s.data.drop s.pos) with
      | .ok pages => .ok ⟨pyJoin "\n" (pdfParts pages), ⟨s.data, 0⟩, []⟩
      | .error e => .ok ⟨"", ⟨s.data, 0⟩, [.error (pdfErrMsg e)]⟩ := by
  unfold read_pdf ByteFile.readAll ByteFile.seek0
  simp [h]

theorem read_docx_unavailable (env : ParseEnv) (s : ByteFile)
    (h : env.docxAvailable = false) :
    read_docx env s = .ok ⟨"", s, [.warning docxWarnMsg]⟩ := by
  unfold read_docx
  simp [h]

theorem read_docx_run (env : ParseEnv) (s : ByteFile)
    (h : env.docxAvailable = true) :
    read_docx env s =
      match env.docxParse (s.data.drop s.pos) with
      | .ok paras =>
          .ok ⟨pyJoin "\n" (paras.filter (fun p => !pyBlank p)), ⟨s.data, 0⟩, []⟩
      | .error e => .ok ⟨"", ⟨s.data, 0⟩, [.error (docxErrMsg e)]⟩ := by
  unfold read_docx ByteFile.readAll ByteFile.seek0
  simp [h]

theorem read_pdf_never_raises (env : ParseEnv) (s : ByteFile) :
    ∃ out, read_pdf env s = .ok out := by
  cases h : env.pdfAvailable
  · exact ⟨_, read_pdf_unavailable env s h⟩
  · rw [read_pdf_run env s h]
    cases henv : env.pdfParse (s.data.drop s.pos) <;> simp

theorem read_docx_never_raises (env : ParseEnv) (s : ByteFile) :
    ∃ out, read_docx env s = .ok out := by
  cases h : env.docxAvailable
  · exact ⟨_, read_docx_unavailable env s h⟩
  · rw [read_docx_run env s h]
    cases henv : env.docxParse (s.data.drop s.pos) <;> simp

/-- C8: on the plain-text path, the bytes are first decoded as UTF-8;
when that decoding fails the same bytes are decoded with the lossy
latin-1 codec instead, and in either case the call returns normally (the
result is ok, never a raised exception), with the stream seeked back to
the start. -/
theorem read_txt_utf8_fallback (s : ByteFile) :
    read_txt s =
      .ok ⟨(match utf8Decode (s.data.drop s.pos) with
            | some cs => String.mk cs
            | none => decodeLatin1 (s.data.drop s.pos)),
           ⟨s.data, 0⟩, []⟩ := by
  rw [read_txt_eq]
  unfold utf8OrLatin1
  rfl

/-- C4: for every parsing environment, byte stream and filename, read_any
returns normally with a string result: no exception escapes to the
caller on any path. -/
theorem read_any_never_raises (env : ParseEnv) (s : ByteFile) (name : String) :
    ∃ out : ExtractOut, read_any env s name = .ok out := by
  simp only [read_any]
  split
  · exact read_pdf_never_raises env s
  · split
    · exact read_docx_never_raises env s
    · split <;> exact ⟨_, read_txt_eq s⟩

/-- C5: read_any dispatches exactly as the specification words it — by a
case-insensitive extension test, .pdf to the PDF reader, .docx to the
DOCX reader, and .txt or any unrecognized name to the plain-text reader,
so no filename is ever rejected. -/
theorem read_any_dispatch (env : ParseEnv) (s : ByteFile) (name : String) :
    read_any env s name =
      match dispatchSpec name with
      | .pdf => read_pdf env s
      | .docx => read_docx env s
      | .txt => read_txt s := by
  unfold read_any dispatchSpec endsWithCI
  have hp : pyLower ".pdf" = ".pdf" := by decide
  have hd : pyLower ".docx" = ".docx" := by decide
  rw [hp, hd]
  cases h1 : pyEndsWith (pyLower name) ".pdf" <;>
    cases h2 : pyEndsWith (pyLower name) ".docx" <;>
      cases h3 : pyEndsWith (pyLower name) ".txt" <;>
        simp [h1, h2, h3]

/-- C6: the assembled user directive contains the job description, the
profile text, the extra notes and the task instruction selected by the
task kind, verbatim and in that fixed order, for both task-kind
variants. -/
theorem userPrompt_contains_sections (jd cv notes : String) (genCover : Bool) :
    ContainsInOrder [jd, cv, notes, if genCover then coverInstr else bulletsInstr]
      (userPrompt jd cv notes genCover) := by
  simp only [ContainsInOrder]
  refine ⟨"JOB DESCRIPTION:\n",
    "\n\nRESUME / PROFILE:\n" ++ (cv ++ ("\n\nEXTRA NOTES:\n" ++ (notes
      ++ ("\n\nTASK: " ++ ((if genCover then coverInstr else bulletsInstr) ++ "\n"))))),
    ?_, "\n\nRESUME / PROFILE:\n",
    "\n\nEXTRA NOTES:\n" ++ (notes
      ++ ("\n\nTASK: " ++ ((if genCover then coverInstr else bulletsInstr) ++ "\n"))),
    ?_, "\n\nEXTRA NOTES:\n",
    "\n\nTASK: " ++ ((if genCover then coverInstr else bulletsInstr) ++ "\n"),
    ?_, "\n\nTASK: ", "\n", ?_, trivial⟩ <;>
  simp only [userPrompt, strAppendAssoc]

/-- C10: when both generation buttons fire in the same interaction, the
bullet-points flag is irrelevant — the outcome equals the cover-letter
run — and the user directive ends with the cover-letter task
instruction. -/
theorem cover_letter_precedence (env : LLMEnv) (jd cv notes : String) :
    genSection env jd cv notes true true = genSection env jd cv notes true false
    ∧ ∃ pre, userPrompt jd cv notes true = pre ++ ("\n\nTASK: " ++ (coverInstr ++ "\n")) := by
  constructor
  · rfl
  · exact ⟨"JOB DESCRIPTION:\n" ++ (jd ++ ("\n\nRESUME / PROFILE:\n"
      ++ (cv ++ ("\n\nEXTRA NOTES:\n" ++ notes)))),
      by simp [userPrompt, strAppendAssoc]⟩

/-- C7: when the dispatched format is PDF and pypdf is missing, or the
dispatched format is DOCX and python-docx is missing, read_any returns
the empty string and emits exactly one diagnostic notification, for
every input stream. -/
theorem read_any_missing_dep (env : ParseEnv) (s : ByteFile) (name : String) :
    (dispatchSpec name = .pdf → env.pdfAvailable = false →
        read_any env s name = .ok ⟨"", s, [.warning pdfWarnMsg]⟩)
    ∧ (dispatchSpec name = .docx → env.docxAvailable = false →
        read_any env s name = .ok ⟨"", s, [.warning docxWarnMsg]⟩) := by
  have hp : pyLower ".pdf" = ".pdf" := by decide
  have hd : pyLower ".docx" = ".docx" := by decide
  constructor
  · intro hdisp havail
    unfold dispatchSpec endsWithCI at hdisp
    rw [hp, hd] at hdisp
    simp only [read_any]
    cases h1 : pyEndsWith (pyLower name) ".pdf"
    · rw [h1] at hdisp
      cases h2 : pyEndsWith (pyLower name) ".docx" <;>
        rw [h2] at hdisp <;> simp at hdisp
    · simp [h1, read_pdf_unavailable env s havail]
  · intro hdisp havail
    unfold dispatchSpec endsWithCI at hdisp
    rw [hp, hd] at hdisp
    simp only [read_any]
    cases h1 : pyEndsWith (pyLower name) ".pdf"
    · cases h2 : pyEndsWith (pyLower name) ".docx"
      · rw [h1, h2] at hdisp; simp at hdisp
      · simp [h1, h2, read_docx_unavailable env s havail]
    · rw [h1] at hdisp; simp at hdisp

/-- Witness for the missing-dependency claim at concrete inputs: an
upper-case .PDF name with pypdf missing, and a mixed-case .DocX name with
python-docx missing. -/
theorem read_any_missing_dep_witness :
    read_any noParseEnv ⟨[1, 2, 3], 5⟩ "cv.PDF"
        = .ok ⟨"", ⟨[1, 2, 3], 5⟩, [.warning pdfWarnMsg]⟩
    ∧ read_any docxMissingEnv ⟨[9], 0⟩ "cv.DocX"
        = .ok ⟨"", ⟨[9], 0⟩, [.warning docxWarnMsg]⟩ :=
  ⟨(read_any_missing_dep noParseEnv ⟨[1, 2, 3], 5⟩ "cv.PDF").1 (by decide) rfl,
   (read_any_missing_dep docxMissingEnv ⟨[9], 0⟩ "cv.DocX").2 (by decide) rfl⟩

/-- C9: whenever a generation button fires with a blank job description,
or with both the parsed resume and the extra notes blank, the run is
blocked: no network call is made, no output is produced, and exactly one
validation error is shown. -/
theorem generation_blocked (env : LLMEnv) (jd cv notes : String) (gc gb : Bool)
    (htrig : (gc || gb) = true)
    (hblank : pyBlank jd = true ∨ (pyBlank cv = true ∧ pyBlank notes = true)) :
    (genSection env jd cv notes gc gb).netCalls = 0
    ∧ (genSection env jd cv notes gc gb).output = ""
    ∧ ((genSection env jd cv notes gc gb).diags = [.error jdValidationMsg]
        ∨ (genSection env jd cv notes gc gb).diags = [.error cvValidationMsg]) := by
  unfold genSection
  rw [htrig]
  cases hj : pyBlank jd
  · rcases hblank with h | ⟨h1, h2⟩
    · rw [hj] at h; exact absurd h (by simp)
    · simp [hj, h1, h2]
  · simp [hj]

/-- Witness for the blocked-generation claim: cover-letter button fired
with an empty job description. -/
theorem generation_blocked_witness :
    (genSection llmEnvOk "" "x" "" true false).netCalls = 0
    ∧ (genSection llmEnvOk "" "x" "" true false).output = ""
    ∧ ((genSection llmEnvOk "" "x" "" true false).diags = [.error jdValidationMsg]
        ∨ (genSection llmEnvOk "" "x" "" true false).diags = [.error cvValidationMsg]) :=
  generation_blocked llmEnvOk "" "x" "" true false rfl (Or.inl (by decide))


theorem optFalsy_none : optFalsy none = true := rfl

theorem client_none_iff (env : LLMEnv) :
    (get_openai_client env).1 = none ↔ (env.sdkAvailable = false ∨ noCredential env) := by
  simp only [get_openai_client]
  unfold noCredential
  cases hsdk : env.sdkAvailable
  · simp
  · cases hsec : env.secretsGet with
    | error e =>
      cases hek : env.envKey with
      | none => simp [optFalsy]
      | some t =>
        cases ht : t.data.isEmpty
        · have ht2 : t.data ≠ [] := by simpa using ht
          simp [ht, ht2, optFalsy]
        · simp [ht, optFalsy]
    | ok k =>
      cases k with
      | none =>
        cases hek : env.envKey with
        | none => simp [optFalsy]
        | some t =>
          cases ht : t.data.isEmpty
          · have ht2 : t.data ≠ [] := by simpa using ht
            simp [ht, ht2, optFalsy]
          · simp [ht, optFalsy]
      | some strv =>
        cases hs : strv.data.isEmpty
        · have hs2 : strv.data ≠ [] := by simpa using hs
          simp [optFalsy, hs, hs2]
        · simp only [optFalsy, hs]
          cases hek : env.envKey with
          | none => simp [optFalsy]
          | some t =>
            cases ht : t.data.isEmpty
            · have ht2 : t.data ≠ [] := by simpa using ht
              simp [ht, ht2, optFalsy]
            · simp [ht, optFalsy]

/-- C1 counterexample: with a credential present in the secrets store but
the SDK import failing, call_llm_chat still returns the fixed fallback
string, so returning that string is not equivalent to no credential being
resolvable. -/
theorem call_llm_chat_fallback_cex :
    ¬ (((call_llm_chat llmEnvSdkMissing systemPrompt "hi").output = noSetupMsg)
        ↔ noCredential llmEnvSdkMissing) := by
  decide

/-- C1 amended: provided the service response does not coincide with the
fallback text, call_llm_chat returns the fixed fallback string exactly
when the SDK is unavailable or no non-empty credential is resolvable from
either configuration source; and whenever no credential is found, that
fallback is returned with no network call attempted. -/
theorem call_llm_chat_fallback (env : LLMEnv) (sys usr : String)
    (hne : env.netResp sys usr ≠ .ok noSetupMsg) :
    ((call_llm_chat env sys usr).output = noSetupMsg
      ↔ (env.sdkAvailable = false ∨ noCredential env))
    ∧ (noCredential env →
        (call_llm_chat env sys usr).output = noSetupMsg
          ∧ (call_llm_chat env sys usr).netCalls = 0) := by
  have hllm : llmErrMsg ≠ noSetupMsg := by decide
  cases hc : (get_openai_client env).1 with
  | none =>
    have hiff := (client_none_iff env).mp hc
    simp only [call_llm_chat, hc]
    refine ⟨?_, fun _ => ⟨?_, ?_⟩⟩ <;> simp [hiff]
  | some k =>
    have hiff : ¬ (env.sdkAvailable = false ∨ noCredential env) := by
      intro h
      rw [← client_none_iff env] at h
      rw [hc] at h
      cases h
    simp only [call_llm_chat, hc]
    cases hnet : env.netResp sys usr with
    | ok content =>
      refine ⟨⟨fun h => absurd (hnet.trans (congrArg Except.ok h)) hne, fun h => absurd h hiff⟩,
        fun hcred => absurd (Or.inr hcred) hiff⟩
    | error e =>
      refine ⟨⟨fun h => absurd h hllm, fun h => absurd h hiff⟩,
        fun hcred => absurd (Or.inr hcred) hiff⟩

/-- Witness for the amended fallback claim: no credential anywhere, SDK
healthy — the fallback comes back and no request goes out. -/
theorem call_llm_chat_fallback_witness :
    (call_llm_chat llmEnvNoKey systemPrompt "hi").output = noSetupMsg
    ∧ (call_llm_chat llmEnvNoKey systemPrompt "hi").netCalls = 0 :=
  (call_llm_chat_fallback llmEnvNoKey systemPrompt "hi" (by decide)).2 (by decide)

/-- C2 counterexample: with three pages — text, a raising extraction,
text — the failed page is skipped outright (its append never runs), so
the parts list is two entries and the joined output has no empty segment
where the claim predicts one. -/
theorem read_pdf_page_failure_cex :
    read_pdf pdfCexEnv ⟨[], 0⟩ = .ok ⟨"a\nb", ⟨[], 0⟩, []⟩
    ∧ pdfParts pagesCex ≠ ["a", "", "b"]
    ∧ ("a\nb" : String) ≠ "a\n\nb" := by
  refine ⟨by decide, by decide, by decide⟩

/-- C2 amended: when pypdf is available and the reader parses, a page
whose extraction raises contributes nothing at all to the per-page parts
list (it is skipped, not recorded as an empty string), while every other
page is still processed — a page returning no text contributes the empty
string — and the output joins exactly those surviving parts. -/
theorem read_pdf_partial_pages (env : ParseEnv) (s : ByteFile)
    (pages : List (Except Exc (Option String)))
    (hav : env.pdfAvailable = true)
    (hp : env.pdfParse (s.data.drop s.pos) = .ok pages) :
    read_pdf env s = .ok ⟨pyJoin "\n" (pdfParts pages), ⟨s.data, 0⟩, []⟩ := by
  rw [read_pdf_run env s hav, hp]

/-- Witness for the partial-pages claim at the concrete three-page
outcome. -/
theorem read_pdf_partial_pages_witness :
    read_pdf pdfCexEnv ⟨[7], 0⟩ = .ok ⟨pyJoin "\n" (pdfParts pagesCex), ⟨[7], 0⟩, []⟩ :=
  read_pdf_partial_pages pdfCexEnv ⟨[7], 0⟩ pagesCex rfl rfl

/-- C3 counterexample: on a stream that is not at the start, the first
extraction reads only the remaining suffix, then rewinds to the start, so
extracting again reads the whole buffer and yields a different result —
the round-trip property fails for streams not already at position 0. -/
theorem read_any_roundtrip_cex :
    read_any noParseEnv ⟨[97, 98], 1⟩ "a.txt" = .ok ⟨"b", ⟨[97, 98], 0⟩, []⟩
    ∧ read_any noParseEnv ⟨[97, 98], 0⟩ "a.txt" = .ok ⟨"ab", ⟨[97, 98], 0⟩, []⟩
    ∧ ("b" : String) ≠ "ab" := by
  refine ⟨by decide, by decide, by decide⟩

/-- C3 amended: for every stream positioned at the start, read_any
returns the stream with its data untouched and its position back at the
start, so a second extraction of the same stream runs on an identical
stream and yields an identical result. -/
theorem read_any_roundtrip (env : ParseEnv) (data : List Nat) (name : String) :
    ∃ t d, read_any env ⟨data, 0⟩ name = .ok ⟨t, ⟨data, 0⟩, d⟩ := by
  simp only [read_any]
  split
  · cases hav : env.pdfAvailable
    · exact ⟨_, _, read_pdf_unavailable env _ hav⟩
    · rw [read_pdf_run env _ hav]
      rcases hp : env.pdfParse ((⟨data, 0⟩ : ByteFile).data.drop (⟨data, 0⟩ : ByteFile).pos) <;>
        exact ⟨_, _, rfl⟩
  · split
    · cases hav : env.docxAvailable
      · exact ⟨_, _, read_docx_unavailable env _ hav⟩
      · rw [read_docx_run env _ hav]
        rcases hp : env.docxParse ((⟨data, 0⟩ : ByteFile).data.drop (⟨data, 0⟩ : ByteFile).pos) <;>
          exact ⟨_, _, rfl⟩
    · split <;> exact ⟨_, _, read_txt_eq _⟩
